import Mathlib

/-!
Verification of the OCO bracket-trading scripts.

This file gives a shallow embedding of the core data model and operations of
the repository's trading scripts — the thread-safe LTP cache and position
registry (`StateManager` in `gs_mock_8.py`), the per-trade worker
(`TradeManager.run` in `gs_mock_8.py` and `OCOStrategy.run` in
`gs_mockAPI_6.py`) and the simulated broker (`MockAdapter` in
`gs_mock_8.py`) — and proves or refutes the specification's claims about
them.  Prices are modelled as rationals (the scripts use Python floats),
timestamps as rationals, and Python dictionaries as association lists.
Each worker is embedded as a pure function of the responses the order
gateway and the shared state hand it during the run: gateway responses and
per-iteration poll observations are explicit inputs, and the worker's
externally visible behaviour (orders placed, cancels issued, registry and
log activity, final state) is the explicit output.
-/

namespace StealthTask

/-! ### Python-style dictionaries and API responses -/

/-- A Python dict with string keys and string values, as an association
list.  Order-gateway responses such as `{'nOrdNo': '12345', 'stat': 'Ok'}`
are modelled this way; only key membership and lookup are used by the
scripts. -/
abbrev PyDict := List (String × String)

/-- Truthiness of an optional dict, as Python's `if not resp:` sees it:
`None` and the empty dict `{}` are falsy, a non-empty dict is truthy. -/
def pyTruthy : Option PyDict → Bool
  | none => false
  | some [] => false
  | some (_ :: _) => true

/-- Python `k in d` for a dict. -/
def dictHasKey (d : PyDict) (k : String) : Bool :=
  d.any (fun p => p.1 = k)

/-- Python `d.get(k)`: the value at the first matching key, if any. -/
def dictFind (d : PyDict) (k : String) : Option String :=
  (d.find? (fun p => p.1 = k)).map (fun p => p.2)

/-- Python `resp['k']`-style access through an optional response:
`none` (the response was `None`) or a missing key both yield `none`,
which the embeddings of the scripts treat as a raised exception at the
corresponding access site. -/
def respFind (r : Option PyDict) (k : String) : Option String :=
  r.bind (fun d => dictFind d k)

/-- The entry-acceptance test of `OCOStrategy.run` (gs_mockAPI_6.py line
212): `if not entry_resp or 'nOrdNo' not in entry_resp`.  `or`
short-circuits, so a `None` response never reaches the membership test. -/
def entryRespFailed : Option PyDict → Bool
  | none => true
  | some d => d.isEmpty || !(dictHasKey d "nOrdNo")

/-! ### Market Data Cache (`StateManager.update_price` / `get_price`,
gs_mock_8.py lines 51-57)

The cache `self.ltp_cache` is a Python dict from token to float; we model
it as an association list with Python-dict assignment semantics
(overwrite the existing binding in place, else append). -/

/-- The LTP cache contents: token ↦ last traded price. -/
abbrev LtpCache := List (String × ℚ)

/-- Python dict assignment `d[k] = v`: replace the binding for `k` if
present, otherwise append a new binding. -/
def dictSet : LtpCache → String → ℚ → LtpCache
  | [], k, v => [(k, v)]
  | (k', v') :: rest, k, v =>
      if k' = k then (k, v) :: rest else (k', v') :: dictSet rest k v

/-- Python `d.get(k, dflt)` on the cache. -/
def cacheGet : LtpCache → String → ℚ → ℚ
  | [], _, dflt => dflt
  | (k', v) :: rest, k, dflt => if k' = k then v else cacheGet rest k dflt

/-- `StateManager.update_price(token, price)`: `self.ltp_cache[token] =
float(price)` under the lock. -/
def update_price (c : LtpCache) (token : String) (price : ℚ) : LtpCache :=
  dictSet c token price

/-- `StateManager.get_price(token)`: `self.ltp_cache.get(token, 0.0)` under
the lock — the never-quoted sentinel is `0.0`, and no code path raises. -/
def get_price (c : LtpCache) (token : String) : ℚ :=
  cacheGet c token 0

/-- Apply a sequence of `update_price` calls, in order, to a cache. -/
def applyUpdates (ops : List (String × ℚ)) (c : LtpCache) : LtpCache :=
  ops.foldl (fun acc p => update_price acc p.1 p.2) c

/-- The price written by the last `update` for a given token in a sequence
of update calls, if any. -/
def lastWrite : List (String × ℚ) → String → Option ℚ
  | [], _ => none
  | (k, v) :: rest, tok =>
      match lastWrite rest tok with
      | some p => some p
      | none => if k = tok then some v else none

/-! ### Position Registry (`StateManager.add_trade` / `remove_trade`,
gs_mock_8.py lines 59-65) -/

/-- One registry record, as built by `TradeManager.run` step 3. -/
structure TradeRec where
  symbol : String
  token : String
  ttype : String
  entry : ℚ
  qty : String
deriving DecidableEq

/-- `StateManager.remove_trade(token)`: `self.active_trades =
[t for t in self.active_trades if t['token'] != token]`. -/
def remove_trade (trades : List TradeRec) (token : String) : List TradeRec :=
  trades.filter (fun t => t.token ≠ token)

/-! ### The OCO monitor loop (`TradeManager.run` step 6, gs_mock_8.py
lines 180-194)

Each iteration of the `while not state.shutdown_flag.is_set()` loop is
modelled by one observation: the flag value the iteration's guard reads,
and the `order_history` responses the two `_is_filled` calls would see.
A finite observation list models a finite prefix of the (potentially
unbounded) loop; exhausting it means the worker is still monitoring. -/

/-- Which exit leg a `cancel_order` call targets. -/
inductive Leg
  | tgt
  | sl
deriving DecidableEq

/-- What one monitor-loop iteration observes: the shutdown flag at the
loop guard, and the `order_history` responses for the target and stop
orders.  A history response is `none` for `{}` (unknown order id) or
`some l` for `{'data': l}` with `l` the list of `ordSt` status strings. -/
structure PollObs where
  shutdown : Bool
  tgtHist : Option (List String)
  slHist : Option (List String)
deriving DecidableEq

/-- `TradeManager._is_filled` (gs_mock_8.py lines 196-200): true iff the
response has a non-empty `data` list whose head status is `'traded'`. -/
def is_filled : Option (List String) → Bool
  | some (s :: _) => s = "traded"
  | some [] => false
  | none => false

/-- Outcome of the monitor loop over a finite observation prefix. -/
inductive MonOutcome
  | profit
  | loss
  | stopped
  | running
deriving DecidableEq

/-- The monitor loop of `TradeManager.run`: check the shutdown flag; if
clear, check the target order first — if filled, cancel the stop leg and
break — then the stop order — if filled, cancel the target leg and
break.  Returns the loop outcome and the cancel requests it issued. -/
def monitorLoop : List PollObs → MonOutcome × List Leg
  | [] => (.running, [])
  | o :: rest =>
      if o.shutdown then (.stopped, [])
      else if is_filled o.tgtHist then (.profit, [.sl])
      else if is_filled o.slHist then (.loss, [.tgt])
      else monitorLoop rest

/-! ### `TradeManager.run` (gs_mock_8.py lines 148-194)

The whole worker as a function of what its collaborators hand it: the
gateway's three `place_order` responses, the cache price read at
entry-price resolution time, and the monitor loop's observations.  The
exit placements read `['nOrdNo']` directly, so a response lacking the key
(or a `None` response) raises an uncaught `KeyError`/`TypeError` and the
thread dies — modelled by the `crashed` outcome. -/

/-- Final state of a `TradeManager.run` execution over a finite trace. -/
inductive TMOutcome
  | abortedEntry
  | crashed
  | profit
  | loss
  | stopped
  | running
deriving DecidableEq

/-- Inputs to one `TradeManager.run` execution. -/
structure TMInput where
  txn : String
  sl_pts : ℚ
  tgt_pts : ℚ
  entryResp : Option PyDict
  cachePrice : ℚ
  tgtResp : Option PyDict
  slResp : Option PyDict
  polls : List PollObs
deriving DecidableEq

/-- Externally visible behaviour of one `TradeManager.run` execution. -/
structure TMResult where
  placeCalls : Nat
  cancels : List Leg
  entryPriceUsed : Option ℚ
  sl_price : Option ℚ
  tgt_price : Option ℚ
  registryAdded : Bool
  registryRemoved : Bool
  outcome : TMOutcome
deriving DecidableEq

/-- Map a monitor-loop outcome to the worker outcome. -/
def tmOutcomeOf : MonOutcome → TMOutcome
  | .profit => .profit
  | .loss => .loss
  | .stopped => .stopped
  | .running => .running

/-- `TradeManager.run`, step by step from the source:
1. `place_order` for the entry; `if not resp: return` (one gateway call,
   nothing registered, `remove_trade` never runs).
2. after the fixed wait, `entry_price = state.get_price(self.token)`,
   then `if entry_price == 0: entry_price = 1000.0`.
3. `state.add_trade({...})`.
4. levels: long (`'B'`) stop `entry − sl_pts`, target `entry + tgt_pts`;
   otherwise stop `entry + sl_pts`, target `entry − tgt_pts`.
5. two exit `place_order` calls, each dereferencing `['nOrdNo']` — a
   missing id crashes the thread at that point, with the registry record
   left in place.
6. the monitor loop; on any loop exit, `state.remove_trade`. -/
def tmRun (inp : TMInput) : TMResult :=
  if pyTruthy inp.entryResp then
    let ep := inp.cachePrice
    let entry_price := if ep = 0 then 1000 else ep
    let slp := if inp.txn = "B" then entry_price - inp.sl_pts else entry_price + inp.sl_pts
    let tgp := if inp.txn = "B" then entry_price + inp.tgt_pts else entry_price - inp.tgt_pts
    match respFind inp.tgtResp "nOrdNo" with
    | none => ⟨2, [], some entry_price, some slp, some tgp, true, false, .crashed⟩
    | some _ =>
        match respFind inp.slResp "nOrdNo" with
        | none => ⟨3, [], some entry_price, some slp, some tgp, true, false, .crashed⟩
        | some _ =>
            let r := monitorLoop inp.polls
            ⟨3, r.2, some entry_price, some slp, some tgp, true,
              decide (r.1 ≠ .running), tmOutcomeOf r.1⟩
  else
    ⟨1, [], none, none, none, false, false, .abortedEntry⟩

/-! ### `OCOStrategy.run` (gs_mockAPI_6.py lines 200-293)

The same worker state machine, but with the error handling of
`gs_mockAPI_6.py`: the whole body runs in a `try`, any raised exception is
caught and logged as a generic `Error` event, and a `finally` block calls
`state.remove_active_trade(self.symbol)` on every path that leaves the
body (including the early `return` on entry failure).  Gateway calls may
raise, so each response is either a value or a raised exception. -/

/-- Result of one Python call into the gateway: a returned value or a
raised exception. -/
inductive Py (α : Type)
  | ok (a : α)
  | exc
deriving DecidableEq

/-- One `place_order` call as the gateway sees it (the arguments the
script passes that distinguish the legs).  Exit prices are sent as
`str(round(p, 2))`; we record the rounded rational. -/
structure PlacedOrder where
  order_type : String
  txn_side : String
  price : ℚ
  trigger : Option ℚ
deriving DecidableEq

/-- Round half up to 2 decimal places, modelling Python's `round(p, 2)`
(which differs from this only on exact half-tie floats). -/
def roundTo2 (x : ℚ) : ℚ :=
  ((round (x * 100) : ℤ) : ℚ) / 100

/-- The worker lifecycle events `OCOStrategy.run` pushes to
`state.add_log`, one constructor per call site.  There is no
manual-intervention or exit-leg-failure event: placement failures reach
the log only as the generic `errCaught` event from the `except` clause. -/
inductive OCOLog
  | executing
  | entryFailed
  | entryAt (p : ℚ)
  | ocoSet
  | targetHit
  | slHit
  | errCaught
deriving DecidableEq

/-- Final state of an `OCOStrategy.run` execution over a finite trace. -/
inductive OCOOutcome
  | entryFailed
  | errCaught
  | profit
  | loss
  | stopped
  | running
deriving DecidableEq

/-- `OCOStrategy._check_fill` (gs_mockAPI_6.py lines 287-293):
`hist['data'][0].get('ordSt', '').lower() == 'traded'`, with any
exception swallowed into `False`. -/
def ocoCheckFill : Option (List String) → Bool
  | some (s :: _) => s.toLower = "traded"
  | some [] => false
  | none => false

/-- The monitor loop of `OCOStrategy.run` (lines 266-280): same shape as
`TradeManager`'s loop, with `_check_fill` as the fill test. -/
def ocoLoop : List PollObs → MonOutcome × List Leg
  | [] => (.running, [])
  | o :: rest =>
      if o.shutdown then (.stopped, [])
      else if ocoCheckFill o.tgtHist then (.profit, [.sl])
      else if ocoCheckFill o.slHist then (.loss, [.tgt])
      else ocoLoop rest

/-- Inputs to one `OCOStrategy.run` execution: the trade parameters, the
three gateway responses (each possibly a raised exception), the cached
LTP read at resolution time (`0` when the symbol was never quoted), and
the monitor loop's observations. -/
structure OCOInput where
  txn_type : String
  sl_pts : ℚ
  tgt_pts : ℚ
  entryResp : Py (Option PyDict)
  ltp : ℚ
  tgtResp : Py (Option PyDict)
  slResp : Py (Option PyDict)
  polls : List PollObs
deriving DecidableEq

/-- Externally visible behaviour of one `OCOStrategy.run` execution.
`orders` lists the `place_order` calls in submission order (a call that
raised is still listed: the gateway received it); `removeCalled` records
whether the `finally` block's `remove_active_trade` ran (it does not run
only while the worker is still inside the loop). -/
structure OCOResult where
  placeCalls : Nat
  orders : List PlacedOrder
  exit_type : Option String
  sl_price : Option ℚ
  tgt_price : Option ℚ
  cancels : List Leg
  logs : List OCOLog
  registryAdded : Bool
  removeCalled : Bool
  outcome : OCOOutcome
deriving DecidableEq

/-- Map a monitor-loop outcome to the `OCOStrategy` outcome. -/
def ocoOutcomeOf : MonOutcome → OCOOutcome
  | .profit => .profit
  | .loss => .loss
  | .stopped => .stopped
  | .running => .running

/-- The closing log event the loop emits, if any. -/
def ocoLoopLog : MonOutcome → List OCOLog
  | .profit => [.targetHit]
  | .loss => [.slHit]
  | .stopped => []
  | .running => []

/-- `OCOStrategy.run`, step by step from the source: market entry (call 1)
and the `not entry_resp or 'nOrdNo' not in entry_resp` check; entry-price
resolution from the LTP cache with the `1000.0` fallback on `0`;
`add_active_trade`; leg computation with the exit side opposite the entry
side; the two exit placements (calls 2 and 3, limit at the rounded target
price, stop-limit at the rounded stop price); `tgt_resp.get('nOrdNo')` /
`sl_resp.get('nOrdNo')` (raising only when a response is `None`); then the
monitor loop.  Any raised exception lands in the `except` clause (generic
error log) and every path except a still-running loop reaches the
`finally` clause (`remove_active_trade`). -/
def ocoRun (inp : OCOInput) : OCOResult :=
  let entryOrder : PlacedOrder := ⟨"MKT", inp.txn_type, 0, none⟩
  match inp.entryResp with
  | .exc =>
      ⟨1, [entryOrder], none, none, none, [], [.executing, .errCaught], false, true, .errCaught⟩
  | .ok r =>
      if entryRespFailed r then
        ⟨1, [entryOrder], none, none, none, [], [.executing, .entryFailed], false, true, .entryFailed⟩
      else
        let entry_price := if inp.ltp = 0 then 1000 else inp.ltp
        let slp := if inp.txn_type = "B" then entry_price - inp.sl_pts else entry_price + inp.sl_pts
        let tgp := if inp.txn_type = "B" then entry_price + inp.tgt_pts else entry_price - inp.tgt_pts
        let ext := if inp.txn_type = "B" then "S" else "B"
        let tgtOrder : PlacedOrder := ⟨"L", ext, roundTo2 tgp, none⟩
        let slOrder : PlacedOrder := ⟨"SL", ext, roundTo2 slp, some (roundTo2 slp)⟩
        match inp.tgtResp with
        | .exc =>
            ⟨2, [entryOrder, tgtOrder], some ext, some slp, some tgp, [],
              [.executing, .entryAt entry_price, .errCaught], true, true, .errCaught⟩
        | .ok tr =>
            match inp.slResp with
            | .exc =>
                ⟨3, [entryOrder, tgtOrder, slOrder], some ext, some slp, some tgp, [],
                  [.executing, .entryAt entry_price, .errCaught], true, true, .errCaught⟩
            | .ok sr =>
                match tr, sr with
                | none, _ =>
                    ⟨3, [entryOrder, tgtOrder, slOrder], some ext, some slp, some tgp, [],
                      [.executing, .entryAt entry_price, .errCaught], true, true, .errCaught⟩
                | some _, none =>
                    ⟨3, [entryOrder, tgtOrder, slOrder], some ext, some slp, some tgp, [],
                      [.executing, .entryAt entry_price, .errCaught], true, true, .errCaught⟩
                | some _, some _ =>
                    let lp := ocoLoop inp.polls
                    ⟨3, [entryOrder, tgtOrder, slOrder], some ext, some slp, some tgp, lp.2,
                      [.executing, .entryAt entry_price, .ocoSet] ++ ocoLoopLog lp.1, true,
                      decide (lp.1 ≠ .running), ocoOutcomeOf lp.1⟩

/-! ### The mock Order Gateway (`MockAdapter`, gs_mock_8.py lines 115-130)

Per-order broker state: `{'status': ..., 't': placement_time}`.  The
time-based auto-fill lives inside `order_history`: whenever a query
arrives more than 2 seconds after placement it first *sets* the stored
status to `'traded'` and then reports it, regardless of the current
stored status. -/

/-- One order's state inside `MockAdapter.orders`. -/
structure MockOrder where
  status : String
  t : ℚ
deriving DecidableEq

/-- `MockAdapter.place_order` at time `now`: status `'pending'`,
placement timestamp `now`. -/
def mock_place_order (now : ℚ) : MockOrder :=
  ⟨"pending", now⟩

/-- `MockAdapter.cancel_order` on a known order id: unconditionally sets
the stored status to `'cancelled'` (and returns `{'stat': 'Ok'}`). -/
def mock_cancel_order (o : MockOrder) : MockOrder :=
  ⟨"cancelled", o.t⟩

/-- `MockAdapter.order_history` on a known order id, queried at time
`now`: if more than 2 seconds have elapsed since placement, overwrite the
stored status with `'traded'`; then report `{'data': [{'ordSt':
status}]}`.  Returns the response and the updated stored order. -/
def mock_order_history (o : MockOrder) (now : ℚ) : Option (List String) × MockOrder :=
  if now - o.t > 2 then (some ["traded"], ⟨"traded", o.t⟩)
  else (some [o.status], o)

/-! ### Cache lemmas -/

/-- Looking up after a Python-dict assignment: the assigned key reads the
new value, every other key is untouched. -/
theorem cacheGet_dictSet (c : LtpCache) (k : String) (v : ℚ) (tok : String) (dflt : ℚ) :
    cacheGet (dictSet c k v) tok dflt = if k = tok then v else cacheGet c tok dflt := by
  induction c with
  | nil => simp [dictSet, cacheGet]
  | cons hd tl ih =>
      obtain ⟨k', v'⟩ := hd
      by_cases h : k' = k
      · subst h
        simp only [dictSet, if_pos rfl, cacheGet]
        split_ifs <;> simp_all [cacheGet]
      · simp only [dictSet, if_neg h, cacheGet, ih]
        split_ifs <;> simp_all

/-- Reading the cache after a sequence of updates: the last write to the
token wins, with the prior cache contents as the default. -/
theorem get_price_applyUpdates (ops : List (String × ℚ)) (c : LtpCache) (tok : String) :
    get_price (applyUpdates ops c) tok = (lastWrite ops tok).getD (get_price c tok) := by
  induction ops generalizing c with
  | nil => rfl
  | cons hd tl ih =>
      obtain ⟨k, v⟩ := hd
      have hstep : applyUpdates ((k, v) :: tl) c = applyUpdates tl (update_price c k v) := rfl
      rw [hstep, ih]
      simp only [lastWrite]
      cases hlw : lastWrite tl tok with
      | some p => simp
      | none =>
          simp only [Option.getD_none]
          simp only [get_price, update_price, cacheGet_dictSet]
          split_ifs <;> simp

/-- A last write is one of the writes in the sequence. -/
theorem lastWrite_mem (ops : List (String × ℚ)) (tok : String) (p : ℚ)
    (h : lastWrite ops tok = some p) : (tok, p) ∈ ops := by
  induction ops with
  | nil => simp [lastWrite] at h
  | cons hd tl ih =>
      obtain ⟨k, v⟩ := hd
      simp only [lastWrite] at h
      cases hlw : lastWrite tl tok with
      | some q =>
          rw [hlw] at h
          cases h
          exact List.mem_cons_of_mem _ (ih hlw)
      | none =>
          rw [hlw] at h
          split_ifs at h with hk
          · cases h
            subst hk
            exact List.mem_cons_self _ _

/-- C7: for every sequence of `update(token, price)` calls followed by
`get(token)`, `get` returns the price written by the last update for that
token and never a value that was never written for it; for a token never
updated, `get` returns the sentinel `0.0` (and, being a total function,
never raises). -/
theorem cache_last_write_wins (ops : List (String × ℚ)) (tok : String) :
    get_price (applyUpdates ops []) tok = (lastWrite ops tok).getD 0
    ∧ (∀ p, lastWrite ops tok = some p → (tok, p) ∈ ops)
    ∧ (lastWrite ops tok = none → get_price (applyUpdates ops []) tok = 0) := by
  refine ⟨get_price_applyUpdates ops [] tok, fun p hp => lastWrite_mem ops tok p hp, fun hn => ?_⟩
  rw [get_price_applyUpdates ops [] tok, hn]
  rfl

/-- C7 witness: two writes to token `"490"` and a read of `"490"` and of a
never-written token, evaluated concretely through the theorem. -/
theorem cache_last_write_wins_witness :
    get_price (applyUpdates [("490", 5), ("490", 7)] []) "490"
        = (lastWrite [("490", 5), ("490", 7)] "490").getD 0
    ∧ ("490", (7 : ℚ)) ∈ ([("490", 5), ("490", 7)] : List (String × ℚ))
    ∧ get_price (applyUpdates [("490", 5), ("490", 7)] []) "300" = 0 :=
  ⟨(cache_last_write_wins [("490", 5), ("490", 7)] "490").1,
   (cache_last_write_wins [("490", 5), ("490", 7)] "490").2.1 7 (by decide),
   (cache_last_write_wins [("490", 5), ("490", 7)] "300").2.2 (by decide)⟩

/-! ### Registry removal (C10) -/

/-- C10: `remove_trade` removes by key, not by record: every record whose
token equals the argument is deleted (and only those), so with two open
trades on the same instrument the first removal also deletes the other
worker's still-live record. -/
theorem remove_trade_removes_by_token (reg : List TradeRec) (tok : String) :
    (∀ t ∈ remove_trade reg tok, t.token ≠ tok)
    ∧ (∀ t ∈ reg, t.token ≠ tok → t ∈ remove_trade reg tok)
    ∧ (∀ r1 r2 : TradeRec, r1.token = r2.token → remove_trade [r1, r2] r1.token = []) := by
  refine ⟨?_, ?_, ?_⟩
  · intro t ht
    have := List.of_mem_filter ht
    simpa using this
  · intro t ht hne
    exact List.mem_filter.2 ⟨ht, by simpa using hne⟩
  · intro r1 r2 h
    simp [remove_trade, List.filter, h]

/-- C10 witness: two concurrent trades on token `"496"`; removing by that
token empties the registry, deleting the other worker's record too. -/
theorem remove_trade_removes_by_token_witness :
    remove_trade [⟨"TCS-EQ", "496", "B", 100, "1"⟩, ⟨"TCS-EQ", "496", "S", 101, "2"⟩] "496"
      = ([] : List TradeRec) :=
  (remove_trade_removes_by_token [] "496").2.2
    ⟨"TCS-EQ", "496", "B", 100, "1"⟩ ⟨"TCS-EQ", "496", "S", 101, "2"⟩ rfl

/-! ### Mock gateway auto-fill vs cancellation (C9) -/

/-- C9: in `MockAdapter`, any `order_history` query made more than the
2-second auto-fill delay after placement reports `'traded'` regardless of
the stored status — in particular after a successful `cancel_order`, whose
recorded `'cancelled'` status is overwritten to `'traded'` in the order
book itself. -/
theorem mock_autofill_overrides_cancel (st : String) (t now : ℚ) (h : now - t > 2) :
    (mock_order_history ⟨st, t⟩ now).1 = some ["traded"]
    ∧ (mock_cancel_order ⟨st, t⟩).status = "cancelled"
    ∧ (mock_order_history (mock_cancel_order ⟨st, t⟩) now).1 = some ["traded"]
    ∧ (mock_order_history (mock_cancel_order ⟨st, t⟩) now).2.status = "traded" := by
  simp [mock_order_history, mock_cancel_order, h]

/-- C9 witness: an order placed at time 0 and cancelled; a status query at
time 3 (past the 2-second delay) reports `'traded'` and overwrites the
recorded cancellation. -/
theorem mock_autofill_overrides_cancel_witness :
    (3 : ℚ) - 0 > 2
    ∧ (mock_order_history (mock_cancel_order ⟨"pending", 0⟩) 3).1 = some ["traded"] :=
  ⟨by norm_num, (mock_autofill_overrides_cancel "pending" 0 3 (by norm_num)).2.2.1⟩

/-! ### Monitor-loop lemmas -/

/-- The monitor loop has exactly four possible results: profit cancelling
the stop leg, loss cancelling the target leg, shutdown with no cancel, or
still running with no cancel. -/
theorem monitorLoop_cases (obs : List PollObs) :
    monitorLoop obs = (.profit, [Leg.sl]) ∨ monitorLoop obs = (.loss, [Leg.tgt])
    ∨ monitorLoop obs = (.stopped, []) ∨ monitorLoop obs = (.running, []) := by
  induction obs with
  | nil => simp [monitorLoop]
  | cons o rest ih =>
      simp only [monitorLoop]
      split_ifs with h1 h2 h3
      · exact Or.inr (Or.inr (Or.inl rfl))
      · exact Or.inl rfl
      · exact Or.inr (Or.inl rfl)
      · exact ih

/-- Iterations that observe neither the shutdown flag nor a fill leave the
loop running: the loop over `pre ++ rest` behaves as the loop over
`rest`. -/
theorem monitorLoop_clean_append (pre rest : List PollObs)
    (h : ∀ p ∈ pre, p.shutdown = false
        ∧ is_filled p.tgtHist = false ∧ is_filled p.slHist = false) :
    monitorLoop (pre ++ rest) = monitorLoop rest := by
  induction pre with
  | nil => rfl
  | cons o pr ih =>
      obtain ⟨h1, h2, h3⟩ := h o (List.mem_cons_self _ _)
      simp only [List.cons_append, monitorLoop, h1, h2, h3, Bool.false_eq_true,
        if_false]
      exact ih (fun p hp => h p (List.mem_cons_of_mem _ hp))

/-- A worker whose entry response is truthy and whose two exit placements
return order ids reaches the monitor loop: its cancels, outcome and place
count are those of the loop over its poll observations, after the fixed
three gateway placements. -/
theorem tmRun_monitoring (inp : TMInput)
    (h1 : pyTruthy inp.entryResp = true)
    (a : String) (ha : respFind inp.tgtResp "nOrdNo" = some a)
    (b : String) (hb : respFind inp.slResp "nOrdNo" = some b) :
    (tmRun inp).cancels = (monitorLoop inp.polls).2
    ∧ (tmRun inp).outcome = tmOutcomeOf (monitorLoop inp.polls).1
    ∧ (tmRun inp).placeCalls = 3 := by
  simp [tmRun, h1, ha, hb]

/-- C2: for every worker that reaches MONITORING, at most one FILLED
observation triggers a cancel across the whole run: the worker never
cancels both legs, a profit exit cancels exactly the stop leg, a loss
exit cancels exactly the target leg, and once a live iteration observes a
fill the worker issues exactly one cancel (never none). -/
theorem tm_oco_exclusive (inp : TMInput)
    (h1 : pyTruthy inp.entryResp = true)
    (a : String) (ha : respFind inp.tgtResp "nOrdNo" = some a)
    (b : String) (hb : respFind inp.slResp "nOrdNo" = some b) :
    (tmRun inp).cancels.length ≤ 1
    ∧ ¬(Leg.tgt ∈ (tmRun inp).cancels ∧ Leg.sl ∈ (tmRun inp).cancels)
    ∧ ((tmRun inp).outcome = .profit → (tmRun inp).cancels = [Leg.sl])
    ∧ ((tmRun inp).outcome = .loss → (tmRun inp).cancels = [Leg.tgt])
    ∧ (∀ pre o post, inp.polls = pre ++ o :: post
        → (∀ p ∈ pre, p.shutdown = false
            ∧ is_filled p.tgtHist = false ∧ is_filled p.slHist = false)
        → o.shutdown = false
        → (is_filled o.tgtHist = true ∨ is_filled o.slHist = true)
        → (tmRun inp).cancels.length = 1) := by
  obtain ⟨hc, ho, _⟩ := tmRun_monitoring inp h1 a ha b hb
  refine ⟨?_, ?_, ?_, ?_, ?_⟩
  · rw [hc]
    rcases monitorLoop_cases inp.polls with h | h | h | h <;> simp [h]
  · rw [hc]
    rcases monitorLoop_cases inp.polls with h | h | h | h <;> simp [h]
  · intro hp
    rw [hc]
    rw [ho] at hp
    rcases monitorLoop_cases inp.polls with h | h | h | h <;>
      simp_all [tmOutcomeOf]
  · intro hp
    rw [hc]
    rw [ho] at hp
    rcases monitorLoop_cases inp.polls with h | h | h | h <;>
      simp_all [tmOutcomeOf]
  · intro pre o post hsplit hpre hsd hfill
    rw [hc, hsplit, monitorLoop_clean_append pre (o :: post) hpre]
    rcases hfill with hf | hf
    · simp [monitorLoop, hsd, hf]
    · simp [monitorLoop, hsd, hf]
      split_ifs <;> rfl

/-- C2 witness: a worker whose second live poll sees the target order
filled issues exactly one cancel, of the stop leg. -/
theorem tm_oco_exclusive_witness :
    (tmRun ⟨"B", 5, 10, some [("nOrdNo", "11")], 100, some [("nOrdNo", "12")],
        some [("nOrdNo", "13")],
        [⟨false, some ["pending"], some ["pending"]⟩,
         ⟨false, some ["traded"], some ["pending"]⟩]⟩).cancels.length ≤ 1 :=
  (tm_oco_exclusive ⟨"B", 5, 10, some [("nOrdNo", "11")], 100, some [("nOrdNo", "12")],
      some [("nOrdNo", "13")],
      [⟨false, some ["pending"], some ["pending"]⟩,
       ⟨false, some ["traded"], some ["pending"]⟩]⟩
    rfl "12" rfl "13" rfl).1

/-- C3: if a live poll iteration reports both exit orders FILLED, the
target branch is evaluated first and wins: the worker ends in the profit
state and cancels the stop leg.  `tmRun` is a function of the gateway
observations, so the outcome is the same on every run with the same
gateway behaviour. -/
theorem tm_tie_break_target_wins (inp : TMInput)
    (h1 : pyTruthy inp.entryResp = true)
    (a : String) (ha : respFind inp.tgtResp "nOrdNo" = some a)
    (b : String) (hb : respFind inp.slResp "nOrdNo" = some b)
    (pre : List PollObs) (o : PollObs) (post : List PollObs)
    (hsplit : inp.polls = pre ++ o :: post)
    (hpre : ∀ p ∈ pre, p.shutdown = false
        ∧ is_filled p.tgtHist = false ∧ is_filled p.slHist = false)
    (hsd : o.shutdown = false)
    (ht : is_filled o.tgtHist = true)
    (_hs : is_filled o.slHist = true) :
    (tmRun inp).outcome = .profit ∧ (tmRun inp).cancels = [Leg.sl] := by
  obtain ⟨hc, ho, _⟩ := tmRun_monitoring inp h1 a ha b hb
  rw [hc, ho, hsplit, monitorLoop_clean_append pre (o :: post) hpre]
  simp [monitorLoop, hsd, ht, tmOutcomeOf]

/-- C3 witness: both legs report `'traded'` on the first poll; the worker
ends in profit and cancels only the stop leg. -/
theorem tm_tie_break_target_wins_witness :
    (tmRun ⟨"B", 5, 10, some [("nOrdNo", "21")], 100, some [("nOrdNo", "22")],
        some [("nOrdNo", "23")],
        [⟨false, some ["traded"], some ["traded"]⟩]⟩).outcome = .profit :=
  (tm_tie_break_target_wins ⟨"B", 5, 10, some [("nOrdNo", "21")], 100,
      some [("nOrdNo", "22")], some [("nOrdNo", "23")],
      [⟨false, some ["traded"], some ["traded"]⟩]⟩
    rfl "22" rfl "23" rfl []
    ⟨false, some ["traded"], some ["traded"]⟩ []
    rfl (by intro p hp; cases hp) rfl rfl rfl).1

/-- C6: once the shutdown flag is observed set at a loop check (after
iterations that observed nothing), the worker exits the monitoring loop
with no cancel requests — whatever the gateway would have reported on
that or later iterations — and its gateway placements stay at the three
made before MONITORING, so all in-flight orders are left as they are. -/
theorem tm_shutdown_leaves_orders (inp : TMInput)
    (h1 : pyTruthy inp.entryResp = true)
    (a : String) (ha : respFind inp.tgtResp "nOrdNo" = some a)
    (b : String) (hb : respFind inp.slResp "nOrdNo" = some b)
    (pre : List PollObs) (o : PollObs) (post : List PollObs)
    (hsplit : inp.polls = pre ++ o :: post)
    (hpre : ∀ p ∈ pre, p.shutdown = false
        ∧ is_filled p.tgtHist = false ∧ is_filled p.slHist = false)
    (hsd : o.shutdown = true) :
    (tmRun inp).outcome = .stopped ∧ (tmRun inp).cancels = []
    ∧ (tmRun inp).placeCalls = 3 := by
  obtain ⟨hc, ho, hp3⟩ := tmRun_monitoring inp h1 a ha b hb
  rw [hc, ho, hsplit, monitorLoop_clean_append pre (o :: post) hpre]
  simp [monitorLoop, hsd, tmOutcomeOf, hp3]

/-- C6 witness: the flag is observed set on the second check while both
legs report `'traded'`; the worker still exits with zero cancels. -/
theorem tm_shutdown_leaves_orders_witness :
    (tmRun ⟨"B", 5, 10, some [("nOrdNo", "31")], 100, some [("nOrdNo", "32")],
        some [("nOrdNo", "33")],
        [⟨false, some ["pending"], some ["pending"]⟩,
         ⟨true, some ["traded"], some ["traded"]⟩]⟩).cancels = [] :=
  (tm_shutdown_leaves_orders ⟨"B", 5, 10, some [("nOrdNo", "31")], 100,
      some [("nOrdNo", "32")], some [("nOrdNo", "33")],
      [⟨false, some ["pending"], some ["pending"]⟩,
       ⟨true, some ["traded"], some ["traded"]⟩]⟩
    rfl "32" rfl "33" rfl
    [⟨false, some ["pending"], some ["pending"]⟩]
    ⟨true, some ["traded"], some ["traded"]⟩ []
    rfl (by intro p hp; simp at hp; subst hp; exact ⟨rfl, rfl, rfl⟩) rfl).2.1

/-- C1: the code does not fail a trade whose entry price is unresolved.
With the entry accepted and the Market Data Cache holding no price for
the token (`get_price` returns the never-quoted sentinel `0`),
`TradeManager.run` substitutes the hardcoded default price `1000.0`
(gs_mock_8.py line 158) and goes on to submit both exit orders — three
gateway placements in total and no failure state — contradicting the
specified FAILED/PriceUnresolved behaviour with zero exit orders. -/
theorem tm_price_fallback_guesses :
    (tmRun ⟨"B", 5, 10, some [("nOrdNo", "41")], 0, some [("nOrdNo", "42")],
        some [("nOrdNo", "43")], []⟩).entryPriceUsed = some 1000
    ∧ (tmRun ⟨"B", 5, 10, some [("nOrdNo", "41")], 0, some [("nOrdNo", "42")],
        some [("nOrdNo", "43")], []⟩).placeCalls = 3
    ∧ (tmRun ⟨"B", 5, 10, some [("nOrdNo", "41")], 0, some [("nOrdNo", "42")],
        some [("nOrdNo", "43")], []⟩).outcome = .running := by
  decide

/-! ### `OCOStrategy` lemmas and claims -/

/-- Once the entry is accepted, every continuation of `OCOStrategy.run`
(exit placements succeeding, raising, or returning `None`) carries the
same computed stop/target levels and exit side, and every gateway
placement after the entry is on the exit side. -/
theorem ocoRun_fields (inp : OCOInput) (r : Option PyDict)
    (hr : inp.entryResp = .ok r) (hok : entryRespFailed r = false) :
    (ocoRun inp).sl_price
        = some (if inp.txn_type = "B"
            then (if inp.ltp = 0 then 1000 else inp.ltp) - inp.sl_pts
            else (if inp.ltp = 0 then 1000 else inp.ltp) + inp.sl_pts)
    ∧ (ocoRun inp).tgt_price
        = some (if inp.txn_type = "B"
            then (if inp.ltp = 0 then 1000 else inp.ltp) + inp.tgt_pts
            else (if inp.ltp = 0 then 1000 else inp.ltp) - inp.tgt_pts)
    ∧ (ocoRun inp).exit_type = some (if inp.txn_type = "B" then "S" else "B")
    ∧ ∀ o ∈ (ocoRun inp).orders.drop 1,
        o.txn_side = (if inp.txn_type = "B" then "S" else "B") := by
  cases htr : inp.tgtResp with
  | exc => simp [ocoRun, hr, hok, htr]
  | ok tr =>
      cases hsr : inp.slResp with
      | exc => simp [ocoRun, hr, hok, htr, hsr]
      | ok sr =>
          cases tr with
          | none => simp [ocoRun, hr, hok, htr, hsr]
          | some trd =>
              cases sr with
              | none => simp [ocoRun, hr, hok, htr, hsr]
              | some srd => simp [ocoRun, hr, hok, htr, hsr]

/-- C4: a trade whose entry placement response is falsy or lacks an order
identifier fails immediately: `OCOStrategy.run` logs the entry failure
and returns, the gateway has seen exactly one `place_order` call (the
market entry), and no exit order or cancel request is ever issued. -/
theorem oco_entry_reject_one_call (inp : OCOInput) (r : Option PyDict)
    (hr : inp.entryResp = .ok r) (hf : entryRespFailed r = true) :
    (ocoRun inp).placeCalls = 1
    ∧ (ocoRun inp).orders = [⟨"MKT", inp.txn_type, 0, none⟩]
    ∧ (ocoRun inp).outcome = .entryFailed
    ∧ (ocoRun inp).cancels = [] := by
  simp [ocoRun, hr, hf]

/-- C4 witness: the gateway answers the entry with `{'stat': 'Ok'}` and no
`nOrdNo`; the run makes exactly one gateway placement. -/
theorem oco_entry_reject_one_call_witness :
    (ocoRun ⟨"B", 5, 10, .ok (some [("stat", "Ok")]), 1005,
        .ok (some [("nOrdNo", "42")]), .ok (some [("nOrdNo", "43")]), []⟩).placeCalls = 1 :=
  (oco_entry_reject_one_call ⟨"B", 5, 10, .ok (some [("stat", "Ok")]), 1005,
      .ok (some [("nOrdNo", "42")]), .ok (some [("nOrdNo", "43")]), []⟩
    (some [("stat", "Ok")]) rfl rfl).1

/-- The concrete run for C5: entry accepted and filled at LTP 1005, then
the target-leg placement raises an exception. -/
def ocoExitFailInput : OCOInput :=
  ⟨"B", 5, 10, .ok (some [("nOrdNo", "51"), ("stat", "Ok")]), 1005, .exc,
    .ok (some [("nOrdNo", "53")]), []⟩

/-- C5: the code does not flag a partial exit-leg placement failure as
needing manual intervention, and it does remove the record.  When the
target-leg placement raises after the entry has filled, `OCOStrategy.run`
logs only the generic error event of its `except` clause (no distinct
manual-intervention condition exists in the code) and its `finally`
clause removes the trade record from the Position Registry —
contradicting the claimed retention of the record. -/
theorem oco_exit_leg_failure_removes_record :
    (ocoRun ocoExitFailInput).registryAdded = true
    ∧ (ocoRun ocoExitFailInput).removeCalled = true
    ∧ (ocoRun ocoExitFailInput).logs = [.executing, .entryAt 1005, .errCaught]
    ∧ (ocoRun ocoExitFailInput).outcome = .errCaught
    ∧ (ocoRun ocoExitFailInput).placeCalls = 2 := by
  decide

/-- C8: with a resolved entry price `e` (non-zero LTP) and positive
distances, a long trade computes stop `e − sl_pts` and target
`e + tgt_pts` with sell-side exit orders, and a short trade computes stop
`e + sl_pts` and target `e − tgt_pts` with buy-side exit orders (the
order tickets carry these levels rounded to 2 decimals, and every
post-entry placement is on the exit side). -/
theorem oco_leg_levels (inp : OCOInput) (r : Option PyDict)
    (hr : inp.entryResp = .ok r) (hok : entryRespFailed r = false)
    (hltp : inp.ltp ≠ 0) (hs : 0 < inp.sl_pts) (ht : 0 < inp.tgt_pts) :
    (inp.txn_type = "B" →
        (ocoRun inp).sl_price = some (inp.ltp - inp.sl_pts)
        ∧ (ocoRun inp).tgt_price = some (inp.ltp + inp.tgt_pts)
        ∧ (ocoRun inp).exit_type = some "S"
        ∧ (∀ o ∈ (ocoRun inp).orders.drop 1, o.txn_side = "S")
        ∧ inp.ltp - inp.sl_pts < inp.ltp ∧ inp.ltp < inp.ltp + inp.tgt_pts)
    ∧ (inp.txn_type = "S" →
        (ocoRun inp).sl_price = some (inp.ltp + inp.sl_pts)
        ∧ (ocoRun inp).tgt_price = some (inp.ltp - inp.tgt_pts)
        ∧ (ocoRun inp).exit_type = some "B"
        ∧ (∀ o ∈ (ocoRun inp).orders.drop 1, o.txn_side = "B")
        ∧ inp.ltp - inp.tgt_pts < inp.ltp ∧ inp.ltp < inp.ltp + inp.sl_pts) := by
  obtain ⟨f1, f2, f3, f4⟩ := ocoRun_fields inp r hr hok
  constructor
  · intro hB
    rw [hB] at f1 f2 f3 f4
    simp only [if_pos rfl, if_neg hltp] at f1 f2 f3 f4
    exact ⟨f1, f2, f3, f4, by linarith, by linarith⟩
  · intro hS
    rw [hS] at f1 f2 f3 f4
    simp only [show ("S" = "B") = False by simp, if_false, if_neg hltp] at f1 f2 f3 f4
    exact ⟨f1, f2, f3, f4, by linarith, by linarith⟩

/-- C8 witness: a long trade at resolved entry 1005 with distances 5 and
10 computes stop 1000, target 1015, and sell-side exits. -/
theorem oco_leg_levels_witness :
    (ocoRun ⟨"B", 5, 10, .ok (some [("nOrdNo", "61")]), 1005,
        .ok (some [("nOrdNo", "62")]), .ok (some [("nOrdNo", "63")]), []⟩).sl_price
      = some (1005 - 5) :=
  ((oco_leg_levels ⟨"B", 5, 10, .ok (some [("nOrdNo", "61")]), 1005,
      .ok (some [("nOrdNo", "62")]), .ok (some [("nOrdNo", "63")]), []⟩
    (some [("nOrdNo", "61")]) rfl rfl (by norm_num) (by norm_num) (by norm_num)).1
    rfl).1

end StealthTask
